import Mathlib

/-
Verification of the campus_guide file-ingestion pipeline.

This file shallowly embeds the code of `app/utility/file_services.py`,
`app/utility/db_services.py`, `app/routers/files.py`, `app/models.py` and
`app/__init__.py`: the file system is an association list from path strings to
file data, Python exceptions become an error type threaded through `Except`,
and the external `kml2geojson.main.convert` library call is abstracted by a
parameter enumerating its possible outcomes (raise `ExpatError`, raise another
exception, or return a value).  String/path manipulation (`pathlib.Path.suffix`,
`with_suffix`, `parent`, `name`) is reimplemented with Python's semantics.
-/

/-- JSON-like values, as produced by `json.loads` and by `kml2geojson`. -/
inductive Json where
  | null : Json
  | bool (b : Bool) : Json
  | num (n : Int) : Json
  | str (s : String) : Json
  | arr (elems : List Json) : Json
  | obj (fields : List (String × Json)) : Json

/-- Python truthiness on JSON-like values (`if not geojson_dict`). -/
def falsy : Json → Bool
  | .null => true
  | .bool b => !b
  | .num n => n == 0
  | .str s => s == ""
  | .arr [] => true
  | .arr (_ :: _) => false
  | .obj [] => true
  | .obj (_ :: _) => false

/-- Content of a stored file: raw bytes, or the serialized form of a JSON value
(what `f.write(json.dumps(geojson_dict))` produces). -/
inductive FileData where
  | bytes (b : List Nat) : FileData
  | jsonText (j : Json) : FileData

/-- The file system: an association list from path strings to file data.
The head entry shadows later entries with the same key. -/
abbrev FS := List (String × FileData)

/-- Look up the content stored at a path. -/
def FS.lookup : FS → String → Option FileData
  | [], _ => none
  | (k, v) :: rest, p => if k = p then some v else FS.lookup rest p

/-- Remove every entry stored at a path (`os.remove`). -/
def FS.remove (fs : FS) (k : String) : FS :=
  fs.filter (fun kv => kv.1 != k)

/-- Write data at a path, shadowing any previous entry (`open(path, "wb")`). -/
def FS.set (fs : FS) (k : String) (v : FileData) : FS :=
  (k, v) :: fs

theorem FS.lookup_set_self (fs : FS) (k : String) (v : FileData) :
    FS.lookup (FS.set fs k v) k = some v := by
  simp [FS.set, FS.lookup]

theorem FS.lookup_set_ne (fs : FS) (k p : String) (v : FileData) (h : p ≠ k) :
    FS.lookup (FS.set fs k v) p = FS.lookup fs p := by
  simp only [FS.set, FS.lookup]
  rw [if_neg (fun hk => h hk.symm)]

theorem FS.lookup_remove (fs : FS) (k p : String) :
    FS.lookup (FS.remove fs k) p = if p = k then none else FS.lookup fs p := by
  induction fs with
  | nil => simp [FS.remove, FS.lookup]
  | cons kv rest ih =>
    obtain ⟨k0, v0⟩ := kv
    by_cases hk : k0 = k
    · subst hk
      have h1 : FS.remove ((k0, v0) :: rest) k0 = FS.remove rest k0 := by
        simp [FS.remove]
      rw [h1, ih]
      by_cases hp : p = k0
      · simp [hp]
      · simp only [hp, if_false, FS.lookup]
        rw [if_neg (fun h : k0 = p => hp h.symm)]
    · have h1 : FS.remove ((k0, v0) :: rest) k = (k0, v0) :: FS.remove rest k := by
        simp [FS.remove, List.filter_cons, bne_iff_ne.mpr hk]
      rw [h1]
      by_cases hp : k0 = p
      · subst hp
        simp [FS.lookup, ih, hk]
      · simp [FS.lookup, hp, ih]

/-- Lowercasing a string (`str.lower()`, used on extensions). -/
def lowerStr (s : String) : String := ⟨s.data.map Char.toLower⟩

/-- The final path component (`pathlib.PurePath.name`). -/
def lastComponent (p : String) : String :=
  ⟨(p.data.reverse.takeWhile (fun c => c != '/')).reverse⟩

/-- The extension of a bare file name, with Python `pathlib` semantics:
the part from the last dot onward, empty when there is no dot, when the dot
is the first character (hidden files) or the last character. -/
def pySuffixName (name : String) : String :=
  let r := name.data.reverse
  let afterDot := r.takeWhile (fun c => c != '.')
  let rest := r.drop afterDot.length
  if rest.head? = some '.' ∧ ¬afterDot.isEmpty ∧ 2 ≤ rest.length then
    ⟨'.' :: afterDot.reverse⟩
  else ""

/-- `pathlib.PurePath(p).suffix`. -/
def pySuffix (p : String) : String := pySuffixName (lastComponent p)

/-- `pathlib.PurePath(p).with_suffix(newSuf)`: drop the current suffix and
append the new one. -/
def withSuffix (p : String) (newSuf : String) : String :=
  ⟨p.data.take (p.data.length - (pySuffix p).data.length)⟩ ++ newSuf

/-- `pathlib.PurePath(p).parent` (as a string). -/
def parentDir (p : String) : String :=
  let r := p.data.reverse
  let afterSlash := r.takeWhile (fun c => c != '/')
  match r.drop afterSlash.length with
  | _ :: before => ⟨before.reverse⟩
  | [] => "."

/-- Allowed MIME types for uploaded files (`app/__init__.py`). -/
def ALLOWED_MIME_TYPES : List String := [
  "image/png",
  "image/jpeg",
  "image/jpg",
  "image/gif",
  "image/webp",
  "application/geo+json",
  "application/vnd.google-earth.kml+xml",
  "application/json",
  "application/octet-stream"]

/-- MIME types treated as geo files (`app/__init__.py`). -/
def GEO_MIME_TYPES : List String := [
  "application/vnd.google-earth.kml+xml",
  "application/octet-stream",
  "application/json",
  "application/geo+json"]

/-- Result of MIME classification. -/
inductive MimeClass where
  | rejected
  | geo
  | image
  deriving DecidableEq

/-- The MIME validation and classification performed by `upload_file` in
`app/routers/files.py` (lines 96-103): reject content types outside
`ALLOWED_MIME_TYPES`; otherwise a file is geo iff its content type is in
`GEO_MIME_TYPES`, else image. -/
def classify (m : String) : MimeClass :=
  if m ∈ ALLOWED_MIME_TYPES then
    (if m ∈ GEO_MIME_TYPES then .geo else .image)
  else .rejected

/-- `fastapi.HTTPException`. -/
structure HTTPException where
  status : Nat
  detail : String
  deriving DecidableEq

/-- Python exceptions relevant to the embedded code. -/
inductive PyErr where
  | http (e : HTTPException)
  | valueError (msg : String)
  | indexError
  | typeError
  | osError (msg : String)
  | attributeError (msg : String)
  deriving DecidableEq

/-- Value returned by `kml2geojson.main.convert`: a Python list, or a non-list
value, for which the code evaluates `result[1]` (which may itself fail). -/
inductive ConvResult where
  | pyList (elems : List Json)
  | nonList (at1 : Option Json)

/-- Outcome of the external `kml2geojson.main.convert` call: it may raise
`ExpatError`, raise some other exception, or return a value. -/
inductive ConvOutcome where
  | expatError
  | raisesOther
  | returns (r : ConvResult)

/-- `FileHandler.convert_and_save_kml_to_geojson` (file_services.py, lines
38-85): run the converter, extract `result[0]` (list) or `result[1]`
(otherwise), fail on a falsy result, write the serialized dict to
`output_filepath`, double-check it exists; `finally`, delete
`input_filepath`. First component is the call result, second the file
system after the call. -/
def convert_and_save_kml_to_geojson (conv : ConvOutcome)
    (input_filepath output_filepath : String) (fs : FS) :
    Except PyErr Unit × FS :=
  let step : Except PyErr Unit × FS :=
    match conv with
    | .expatError => (.error (.valueError "Invalid KML structure or encoding"), fs)
    | .raisesOther => (.error (.valueError "KML to GeoJSON conversion failed"), fs)
    | .returns r =>
      let extracted : Except PyErr Json :=
        match r with
        | .pyList [] => .error .indexError
        | .pyList (x :: _) => .ok x
        | .nonList none => .error .typeError
        | .nonList (some v) => .ok v
      match extracted with
      | .error e => (.error e, fs)
      | .ok geojson_dict =>
        if falsy geojson_dict then
          (.error (.valueError "Invalid KML structure or encoding"), fs)
        else
          let fs2 := FS.set fs output_filepath (.jsonText geojson_dict)
          if (FS.lookup fs2 output_filepath).isNone then
            (.error (.valueError "KML to GeoJSON conversion failed, file not created"), fs2)
          else (.ok (), fs2)
  (step.1, FS.remove step.2 input_filepath)

/-- An upload as seen by the pipeline: `fastapi.UploadFile` with its declared
content type and its full byte content. -/
structure Upload where
  filename : String
  content_type : String
  content : List Nat

def BASE_STATIC_DIR : String := "app/static"

def GEO_JSON_DIR : String := BASE_STATIC_DIR ++ "/geo_jsons"

def IMAGE_DIR : String := BASE_STATIC_DIR ++ "/images"

/-- `FileHandler._get_upload_path` (file_services.py, lines 87-108): fail with
400 when the filename has no extension, else allocate
`dir/<uuid><extension>` with the directory chosen by the declared content
type. The random `uuid.uuid4()` value is passed in as `uuidStr`. -/
def get_upload_path (uploaded_file : Upload) (uuidStr : String) :
    Except HTTPException String :=
  let file_extension := pySuffix uploaded_file.filename
  if file_extension = "" then
    .error ⟨400, "File has no extension"⟩
  else
    let upload_dir :=
      if uploaded_file.content_type ∈ GEO_MIME_TYPES then GEO_JSON_DIR else IMAGE_DIR
    .ok (upload_dir ++ "/" ++ uuidStr ++ file_extension)

/-- The exception translation in `FileHandler.save_file` (lines 142-152):
`HTTPException` passes through, `ValueError` becomes 400, `OSError` 500, any
other exception the generic 500. -/
def saveErrToHttp (e : PyErr) : HTTPException :=
  match e with
  | .http he => he
  | .valueError msg => ⟨400, "Error processing KML file: " ++ msg⟩
  | .osError msg => ⟨500, "Could not save file on server: " ++ msg⟩
  | _ => ⟨500, "An internal error occurred during file saving."⟩

/-- `FileHandler.save_file` (file_services.py, lines 110-154): allocate the
path, reject empty content, write the bytes, and when the original filename
has suffix `.kml` (case-insensitive) convert to a sibling `.geojson` file. -/
def save_file (conv : ConvOutcome) (uuidStr : String) (uploaded_file : Upload)
    (fs : FS) : Except HTTPException String × FS :=
  match get_upload_path uploaded_file uuidStr with
  | .error e => (.error e, fs)
  | .ok file_path_obj =>
    if uploaded_file.content.isEmpty then
      (.error ⟨400, "Empty file uploaded"⟩, fs)
    else
      let fs1 := FS.set fs file_path_obj (.bytes uploaded_file.content)
      if lowerStr (pySuffix uploaded_file.filename) = ".kml" then
        let output_filepath := withSuffix file_path_obj ".geojson"
        let res := convert_and_save_kml_to_geojson conv file_path_obj output_filepath fs1
        match res.1 with
        | .ok _ => (.ok output_filepath, res.2)
        | .error e => (.error (saveErrToHttp e), res.2)
      else
        (.ok file_path_obj, fs1)

/-- Lowercase hexadecimal digit, as used by `str(uuid.uuid4())`. -/
def hexChar (n : Fin 16) : Char :=
  if n.val < 10 then Char.ofNat (48 + n.val) else Char.ofNat (87 + n.val)

/-- A run of `len` hex digits drawn from the digit source `d` starting at
index `start`. -/
def hexRun (d : Nat → Fin 16) (start len : Nat) : List Char :=
  (List.range len).map (fun i => hexChar (d (start + i)))

/-- The string form of `uuid.uuid4()`: 32 lowercase hex digits grouped
8-4-4-4-12 by dashes.  The digit source `d` models the randomness; every
string produced by `str(uuid.uuid4())` is `uuid4String d` for some `d`. -/
def uuid4String (d : Nat → Fin 16) : String :=
  ⟨hexRun d 0 8 ++ '-' :: hexRun d 8 4 ++ '-' :: hexRun d 12 4 ++
    '-' :: hexRun d 16 4 ++ '-' :: hexRun d 20 12⟩

/-- Characters allowed by the spec's file-name pattern `[0-9a-f-]`. -/
def isUuidChar (c : Char) : Bool :=
  (48 ≤ c.toNat && c.toNat ≤ 57) || (97 ≤ c.toNat && c.toNat ≤ 102) || c == '-'

/-- `str(e)` for the modelled Python exceptions, used when an error message is
interpolated into an `HTTPException` detail. -/
def pyStr (e : PyErr) : String :=
  match e with
  | .http he => he.detail
  | .valueError msg => msg
  | .osError msg => msg
  | .indexError => "list index out of range"
  | .typeError => "tuple index out of range"
  | .attributeError msg => msg

/-- `shutil.move` on a same-directory pair: an atomic rename that either
moves the complete source onto the target or (when `moveOk` is false,
modelling an I/O failure) raises, leaving the file system unchanged; the
raised error is wrapped by the caller's handler, which removes the current
temp artifact and re-raises 500. -/
def owMove (moveOk : Bool) (src target : String) (fs : FS) :
    Except HTTPException Unit × FS :=
  if moveOk then
    match FS.lookup fs src with
    | some v => (.ok (), FS.set (FS.remove fs src) target v)
    | none => (.error ⟨500, "Failed to overwrite file: " ++ pyStr (.osError "move failed")⟩,
        FS.remove fs src)
  else
    (.error ⟨500, "Failed to overwrite file: " ++ pyStr (.osError "move failed")⟩,
      FS.remove fs src)

/-- `FileHandler.overwrite_file` (file_services.py, lines 225-274): stream the
new content to a hidden `.<uuid>.tmp` file next to `target_path`, convert it
when the upload's filename ends in `.kml`, then atomically move the temp
artifact onto `target_path`; on any exception remove the current temp
artifact and raise 500.  Failure injection: `wrFail = some part` means the
chunked write loop raised after writing `part`; `moveOk = false` means
`shutil.move` raised. -/
def overwrite_file (wrFail : Option (List Nat)) (conv : ConvOutcome)
    (moveOk : Bool) (uuidStr : String) (file : Upload) (target_path : String)
    (fs : FS) : Except HTTPException Unit × FS :=
  let temp_filename := "." ++ uuidStr ++ ".tmp"
  let temp0 := parentDir target_path ++ "/" ++ temp_filename
  match wrFail with
  | some part =>
    let fs1 := FS.set fs temp0 (.bytes part)
    (.error ⟨500, "Failed to overwrite file: " ++ pyStr (.osError "write failed")⟩,
      FS.remove fs1 temp0)
  | none =>
    let fs1 := FS.set fs temp0 (.bytes file.content)
    if lowerStr (pySuffix file.filename) = ".kml" then
      let output_filepath := withSuffix temp0 ".geojson"
      let cr := convert_and_save_kml_to_geojson conv temp0 output_filepath fs1
      match cr.1 with
      | .error e =>
        (.error ⟨500, "Failed to overwrite file: " ++ pyStr e⟩, FS.remove cr.2 temp0)
      | .ok _ => owMove moveOk output_filepath target_path cr.2
    else
      owMove moveOk temp0 target_path fs1

/-- A single-quote character, for faithful interpolated detail strings. -/
def sglq : String := ⟨[Char.ofNat 39]⟩

/-- A `GeoFile` or `ImageFile` row (`app/models.py`): `isGeo` records which of
the two models the row belongs to. -/
structure FileRec where
  name : String
  isGeo : Bool
  institution_id : String
  path : String
  deriving DecidableEq

/-- The file tables of the database. -/
abbrev FileDB := List FileRec

/-- `CRUDService.file_exists` (db_services.py, lines 121-135): is there a row
of the given kind for the institution? -/
def file_exists (db : FileDB) (institution_id : String) (is_geo : Bool) : Bool :=
  db.any (fun r => r.institution_id == institution_id && r.isGeo == is_geo)

/-- `CRUDService.create_file` (db_services.py, lines 137-165): save the upload
on disk, then insert a `GeoFile` or `ImageFile` row — the model is chosen by
the declared content type — recording the on-disk name and path. -/
def create_file (conv : ConvOutcome) (uuidStr : String) (file : Upload)
    (institution_id : String) (db : FileDB) (fs : FS) :
    Except HTTPException FileRec × FileDB × FS :=
  match save_file conv uuidStr file fs with
  | (.error e, fs2) => (.error e, db, fs2)
  | (.ok file_path, fs2) =>
    let new_file : FileRec :=
      { name := lastComponent file_path
        isGeo := GEO_MIME_TYPES.contains file.content_type
        institution_id := institution_id
        path := file_path }
    (.ok new_file, db ++ [new_file], fs2)

/-- The body of the `upload_file` route (`app/routers/files.py`, lines
68-126): for each file, validate its MIME type, reject when a file of the
same kind already exists for the institution, then create it.  Each batch
element carries its upload together with the uuid drawn for it and the
converter outcome for it.  The first raised `HTTPException` aborts the loop;
rows created for earlier elements remain committed. -/
def upload_file :
    List (Upload × String × ConvOutcome) → String → FileDB → FS →
    Except HTTPException Unit × FileDB × FS
  | [], _, db, fs => (.ok (), db, fs)
  | (file, uid, conv) :: rest, institution_id, db, fs =>
    if file.content_type ∈ ALLOWED_MIME_TYPES then
      let is_geo := GEO_MIME_TYPES.contains file.content_type
      if file_exists db institution_id is_geo then
        (.error ⟨400, "File with name " ++ sglq ++ file.filename ++ sglq ++
          " already exists for institution."⟩, db, fs)
      else
        match create_file conv uid file institution_id db fs with
        | (.error e, db2, fs2) => (.error e, db2, fs2)
        | (.ok _, db2, fs2) => upload_file rest institution_id db2 fs2
    else
      (.error ⟨400, "Invalid file type " ++ sglq ++ file.content_type ++ sglq ++
        ". Allowed types are images, GeoJSON, or KML."⟩, db, fs)

/-- Python `isinstance(v, dict) and ("type" in v)` on a parsed JSON value. -/
def hasTypeKey : Json → Bool
  | .obj fields => fields.any (fun kv => kv.1 == "type")
  | _ => false

/-- The result of `json.loads` on stored file data: bytes go through the
abstract JSON parser `jsonLoads` (`none` = `JSONDecodeError`); data written
as `json.dumps(j)` parses back to `j`. -/
def parsedOf (jsonLoads : List Nat → Option Json) : FileData → Option Json
  | .bytes b => jsonLoads b
  | .jsonText j => some j

/-- `FileHandler.load_geojson_content` (file_services.py, lines 156-189):
404 when the path is absent, 400 when the content does not parse as JSON,
400 when the parsed value is not a dict with a `type` key, otherwise the
parsed value. -/
def load_geojson_content (jsonLoads : List Nat → Option Json) (fs : FS)
    (file_path : String) : Except HTTPException Json :=
  match FS.lookup fs file_path with
  | none => .error ⟨404, "GeoJSON file not found"⟩
  | some fd =>
    match parsedOf jsonLoads fd with
    | none => .error ⟨400, "Could not parse GeoJSON file content"⟩
    | some parsed_data =>
      if hasTypeKey parsed_data then .ok parsed_data
      else
        .error ⟨400, "Invalid GeoJSON structure: Missing " ++ sglq ++ "type" ++ sglq ++
          " key or not a dictionary."⟩

/-- An `Institution` row with its optional one-to-one `geo_file` and
`image_file` relationships (`app/models.py`, lines 18-62: `uselist=False`,
both relationships may be absent). -/
structure InstRec where
  id : String
  geo_file : Option FileRec
  image_file : Option FileRec
  deriving DecidableEq

/-- The institutions table. -/
abbrev InstDB := List InstRec

/-- `CRUDService.get_institution_by_id` (db_services.py, lines 67-85). -/
def get_institution_by_id (db : InstDB) (institution_id : String) :
    Except HTTPException InstRec :=
  match db.find? (fun r => r.id == institution_id) with
  | none => .error ⟨404, "Institution not found"⟩
  | some inst => .ok inst

/-- `CRUDService.delete_institution` (db_services.py, lines 106-117): fetch
the institution, delete `institution.geo_file.path` from disk, then
`institution.image_file.path`, then delete the row.  Accessing `.path` on an
absent relationship raises `AttributeError` (`None` has no attribute). -/
def delete_institution (db : InstDB) (fs : FS) (institution_id : String) :
    Except PyErr Unit × InstDB × FS :=
  match get_institution_by_id db institution_id with
  | .error e => (.error (.http e), db, fs)
  | .ok institution =>
    match institution.geo_file with
    | none => (.error (.attributeError "NoneType object has no attribute path"), db, fs)
    | some g =>
      let fs1 := FS.remove fs g.path
      match institution.image_file with
      | none => (.error (.attributeError "NoneType object has no attribute path"), db, fs1)
      | some im =>
        let fs2 := FS.remove fs1 im.path
        (.ok (), db.filter (fun r => r.id != institution_id), fs2)

/-- The `ValueError` message produced by the conversion step for a given
converter outcome, when the step fails with a `ValueError` (the errors the
taxonomy maps to 400); `none` when the step succeeds or fails with another
exception class. -/
def convErrMsg : ConvOutcome → Option String
  | .expatError => some "Invalid KML structure or encoding"
  | .raisesOther => some "KML to GeoJSON conversion failed"
  | .returns (.pyList (gd :: _)) =>
    if falsy gd then some "Invalid KML structure or encoding" else none
  | .returns (.nonList (some v)) =>
    if falsy v then some "Invalid KML structure or encoding" else none
  | .returns (.pyList []) => none
  | .returns (.nonList none) => none

/-- C8: classification rejects a declared MIME string iff it is outside the
fixed allowed set of nine types; of the allowed set, exactly geo+json,
kml+xml, json and octet-stream classify as geo, and the rest as image. -/
theorem C8_mime_classification (m : String) :
    (classify m = MimeClass.rejected ↔
      m ∉ (["image/png", "image/jpeg", "image/jpg", "image/gif", "image/webp",
        "application/geo+json", "application/vnd.google-earth.kml+xml",
        "application/json", "application/octet-stream"] : List String)) ∧
    (m ∈ ALLOWED_MIME_TYPES →
      (classify m = MimeClass.geo ↔
        m ∈ (["application/geo+json", "application/vnd.google-earth.kml+xml",
          "application/json", "application/octet-stream"] : List String))) ∧
    (m ∈ ALLOWED_MIME_TYPES → classify m ≠ MimeClass.geo →
      classify m = MimeClass.image) := by
  have hA : m ∈ ALLOWED_MIME_TYPES ↔
      m ∈ (["image/png", "image/jpeg", "image/jpg", "image/gif", "image/webp",
        "application/geo+json", "application/vnd.google-earth.kml+xml",
        "application/json", "application/octet-stream"] : List String) := Iff.rfl
  have hG : m ∈ GEO_MIME_TYPES ↔
      m ∈ (["application/geo+json", "application/vnd.google-earth.kml+xml",
        "application/json", "application/octet-stream"] : List String) := by
    simp only [GEO_MIME_TYPES, List.mem_cons, List.mem_singleton]
    tauto
  by_cases h1 : m ∈ ALLOWED_MIME_TYPES
  · by_cases h2 : m ∈ GEO_MIME_TYPES
    · refine ⟨?_, fun _ => ?_, fun _ h => absurd ?_ h⟩ <;>
        simp_all [classify, h1, h2]
    · refine ⟨?_, fun _ => ?_, fun _ _ => ?_⟩ <;>
        (simp_all [classify, h1, h2]; try tauto)
  · refine ⟨?_, fun hm => absurd hm h1, fun hm => absurd hm h1⟩
    simp_all [classify, h1]

/-- C8 witness: a concrete allowed geo MIME type classifies as geo. -/
theorem C8_mime_classification_witness : classify "application/json" = MimeClass.geo :=
  ((C8_mime_classification "application/json").2.1 (by decide)).mpr (by decide)


/-- C6: `load_geojson_content` fails 404 exactly when the path is absent, 400
"Could not parse" exactly when the content is not valid JSON, 400 "Invalid
GeoJSON structure" exactly when the parsed value is not a dict or lacks a
`type` key, and otherwise returns the parsed value verbatim. -/
theorem C6_load_geojson_content_spec (jsonLoads : List Nat → Option Json)
    (fs : FS) (file_path : String) :
    (FS.lookup fs file_path = none ↔
      load_geojson_content jsonLoads fs file_path =
        .error ⟨404, "GeoJSON file not found"⟩) ∧
    ((∃ fd, FS.lookup fs file_path = some fd ∧ parsedOf jsonLoads fd = none) ↔
      load_geojson_content jsonLoads fs file_path =
        .error ⟨400, "Could not parse GeoJSON file content"⟩) ∧
    ((∃ fd v, FS.lookup fs file_path = some fd ∧ parsedOf jsonLoads fd = some v ∧
        hasTypeKey v = false) ↔
      load_geojson_content jsonLoads fs file_path =
        .error ⟨400, "Invalid GeoJSON structure: Missing " ++ sglq ++ "type" ++ sglq ++
          " key or not a dictionary."⟩) ∧
    (∀ fd v, FS.lookup fs file_path = some fd → parsedOf jsonLoads fd = some v →
      hasTypeKey v = true →
      load_geojson_content jsonLoads fs file_path = .ok v) := by
  have hq1 : ("Invalid GeoJSON structure: Missing " ++ sglq ++ "type" ++ sglq ++
      " key or not a dictionary." : String) ≠ "GeoJSON file not found" := by decide
  have hq2 : ("Invalid GeoJSON structure: Missing " ++ sglq ++ "type" ++ sglq ++
      " key or not a dictionary." : String) ≠ "Could not parse GeoJSON file content" := by
    decide
  rcases hL : FS.lookup fs file_path with _ | fd
  · simp [load_geojson_content, hL, Ne.symm hq1]
  · rcases hP : parsedOf jsonLoads fd with _ | v
    · simp [load_geojson_content, hL, hP, Ne.symm hq2]
      rintro fd1 v rfl hv
      rw [hP] at hv
      cases hv
    · rcases hT : hasTypeKey v with _ | _
      · simp [load_geojson_content, hL, hP, hT, hq1, hq2]
        rintro _ v2 rfl hv
        rw [hP] at hv
        injection hv with hv
        subst hv
        exact hT
      · simp [load_geojson_content, hL, hP, hT]
        rintro _ v2 rfl hv
        rw [hP] at hv
        exact fun _ => Option.some.inj hv

/-- C6 witness: a present file whose content parses to a dict with a `type`
key is returned verbatim. -/
theorem C6_load_geojson_content_spec_witness :
    load_geojson_content (fun _ => none)
      [("p.geojson", FileData.jsonText (Json.obj [("type", Json.str "FeatureCollection")]))]
      "p.geojson" = .ok (Json.obj [("type", Json.str "FeatureCollection")]) :=
  (C6_load_geojson_content_spec (fun _ => none) _ "p.geojson").2.2.2
    (FileData.jsonText (Json.obj [("type", Json.str "FeatureCollection")]))
    (Json.obj [("type", Json.str "FeatureCollection")]) rfl rfl rfl

/-- C4 counterexample: an empty upload whose filename has no extension fails
with 400 "File has no extension", not with the message "Empty file uploaded"
the claim requires for every empty upload. -/
theorem C4_counterexample :
    (save_file ConvOutcome.expatError "u0" ⟨"noext", "image/png", []⟩ []).1 =
      Except.error ⟨400, "File has no extension"⟩ ∧
    ("File has no extension" : String) ≠ "Empty file uploaded" := by
  exact ⟨rfl, by decide⟩

/-- C4 (amended): an empty upload whose filename has an extension fails with
400 "Empty file uploaded" and the file system is untouched (nothing is
written); an empty upload without an extension also fails 400 before any
write, but with detail "File has no extension". -/
theorem C4_empty_upload (conv : ConvOutcome) (uuidStr : String) (u : Upload)
    (fs : FS) (he : u.content = []) :
    (pySuffix u.filename ≠ "" →
      save_file conv uuidStr u fs = (.error ⟨400, "Empty file uploaded"⟩, fs)) ∧
    (pySuffix u.filename = "" →
      save_file conv uuidStr u fs = (.error ⟨400, "File has no extension"⟩, fs)) := by
  constructor
  · intro hs
    simp [save_file, get_upload_path, hs, he]
  · intro hs
    simp [save_file, get_upload_path, hs]

/-- C4 witness: concrete empty upload with an extension. -/
theorem C4_empty_upload_witness :
    save_file ConvOutcome.expatError "u0" ⟨"a.png", "image/png", []⟩ [] =
      (.error ⟨400, "Empty file uploaded"⟩, []) :=
  (C4_empty_upload ConvOutcome.expatError "u0" ⟨"a.png", "image/png", []⟩ [] rfl).1
    (by decide)

/-- C3: evaluating `save_file` at the claim's own example input — the
converter returns an empty list — yields the generic 500 internal error, not
the 400 `ConversionError` the claim states: `result[0]` raises `IndexError`,
which is not caught by the `ValueError` handler. -/
theorem C3_empty_conversion_result_500 :
    (save_file (ConvOutcome.returns (ConvResult.pyList [])) "u1"
      ⟨"c.kml", "application/octet-stream", [1, 2]⟩ []).1 =
      Except.error ⟨500, "An internal error occurred during file saving."⟩ := by
  rfl

theorem takeWhile_append_stop {α : Type} (p : α → Bool) (l1 l2 : List α) (c : α)
    (h1 : ∀ x ∈ l1, p x = true) (hc : p c = false) :
    (l1 ++ c :: l2).takeWhile p = l1 := by
  induction l1 with
  | nil => simp [List.takeWhile_cons, hc]
  | cons a l ih =>
    have ha := h1 a (List.mem_cons_self a l)
    simp only [List.cons_append, List.takeWhile_cons, ha, if_true]
    rw [ih (fun x hx => h1 x (List.mem_cons_of_mem a hx))]

/-- Python `PurePath.suffix` of `uid ++ ext` is `ext` when `uid` is nonempty
and `ext` is a dot followed by a nonempty dot-free tail. -/
theorem pySuffixName_append (uid ext : String) (rest : List Char)
    (hu0 : uid.data ≠ [])
    (hext : ext.data = '.' :: rest) (hr0 : rest ≠ [])
    (hrdot : ∀ c ∈ rest, c ≠ '.') :
    pySuffixName (uid ++ ext) = ext := by
  have hr : (uid ++ ext).data.reverse = rest.reverse ++ '.' :: uid.data.reverse := by
    rw [String.data_append, hext, List.reverse_append, List.reverse_cons]
    simp [List.append_assoc]
  have htw : (uid ++ ext).data.reverse.takeWhile (fun c => c != '.') = rest.reverse := by
    rw [hr]
    exact takeWhile_append_stop _ _ _ _
      (fun x hx => bne_iff_ne.mpr (hrdot x (List.mem_reverse.mp hx))) (by decide)
  have hdr : (uid ++ ext).data.reverse.drop rest.reverse.length =
      '.' :: uid.data.reverse := by
    rw [hr]
    exact List.drop_left _ _
  simp only [pySuffixName, htw, hdr]
  rw [if_pos]
  · apply String.ext
    simp [hext]
  · refine ⟨rfl, ?_, ?_⟩
    · simp [hr0]
    · simp only [List.length_cons]
      have hne : uid.data.reverse ≠ [] := fun h => hu0 (List.reverse_eq_nil_iff.mp h)
      have := List.length_pos.mpr hne
      omega

/-- `PurePath.name` of `dir ++ "/" ++ uid ++ ext` is `uid ++ ext` when neither
`uid` nor `ext` contains a slash. -/
theorem lastComponent_append (dir uid ext : String)
    (hu : ∀ c ∈ uid.data, c ≠ '/')
    (hx : ∀ c ∈ ext.data, c ≠ '/') :
    lastComponent (dir ++ "/" ++ uid ++ ext) = uid ++ ext := by
  have hdata : (dir ++ "/" ++ uid ++ ext).data.reverse =
      (ext.data.reverse ++ uid.data.reverse) ++ '/' :: dir.data.reverse := by
    rw [String.data_append, String.data_append, String.data_append]
    rw [List.reverse_append, List.reverse_append, List.reverse_append]
    simp [List.append_assoc]
  have htw : (dir ++ "/" ++ uid ++ ext).data.reverse.takeWhile (fun c => c != '/') =
      ext.data.reverse ++ uid.data.reverse := by
    rw [hdata]
    refine takeWhile_append_stop _ _ _ _ ?_ (by decide)
    intro x hx2
    rcases List.mem_append.mp hx2 with h | h
    · exact bne_iff_ne.mpr (hx x (List.mem_reverse.mp h))
    · exact bne_iff_ne.mpr (hu x (List.mem_reverse.mp h))
  apply String.ext
  show ((dir ++ "/" ++ uid ++ ext).data.reverse.takeWhile (fun c => c != '/')).reverse =
    (uid ++ ext).data
  rw [htw, List.reverse_append, List.reverse_reverse, List.reverse_reverse,
    String.data_append]

/-- `with_suffix(".geojson")` on an allocated path `dir/<uid><ext>` replaces
exactly the extension. -/
theorem withSuffix_alloc (dir uid ext : String) (rest : List Char)
    (hu0 : uid.data ≠ [])
    (hu : ∀ c ∈ uid.data, c ≠ '/')
    (hext : ext.data = '.' :: rest) (hr0 : rest ≠ [])
    (hrdot : ∀ c ∈ rest, c ≠ '.')
    (hrs : ∀ c ∈ rest, c ≠ '/') :
    pySuffix (dir ++ "/" ++ uid ++ ext) = ext ∧
    lastComponent (dir ++ "/" ++ uid ++ ext) = uid ++ ext ∧
    withSuffix (dir ++ "/" ++ uid ++ ext) ".geojson" =
      dir ++ "/" ++ uid ++ ".geojson" := by
  have hxs : ∀ c ∈ ext.data, c ≠ '/' := by
    intro c hc
    rw [hext] at hc
    rcases List.mem_cons.mp hc with h | h
    · subst h; decide
    · exact hrs c h
  have hlast : lastComponent (dir ++ "/" ++ uid ++ ext) = uid ++ ext :=
    lastComponent_append dir uid ext hu hxs
  have hsuf : pySuffix (dir ++ "/" ++ uid ++ ext) = ext := by
    rw [pySuffix, hlast]
    exact pySuffixName_append uid ext rest hu0 hext hr0 hrdot
  refine ⟨hsuf, hlast, ?_⟩
  have hdata : (dir ++ "/" ++ uid ++ ext).data = (dir ++ "/" ++ uid).data ++ ext.data := by
    rw [String.data_append]
  rw [withSuffix, hsuf, hdata]
  have hlen : ((dir ++ "/" ++ uid).data ++ ext.data).length - ext.data.length =
      (dir ++ "/" ++ uid).data.length := by
    rw [List.length_append]
    omega
  rw [hlen, List.take_left]

/-- A nonempty Python suffix is a dot followed by a nonempty run of characters
that are neither dots nor slashes. -/
theorem pySuffix_shape (f : String) (h : pySuffix f ≠ "") :
    ∃ rest : List Char, (pySuffix f).data = '.' :: rest ∧ rest ≠ [] ∧
      (∀ c ∈ rest, c ≠ '.') ∧ (∀ c ∈ rest, c ≠ '/') := by
  by_cases hc : ((lastComponent f).data.reverse.drop
        ((lastComponent f).data.reverse.takeWhile (fun c => c != '.')).length).head? =
        some '.' ∧
      ¬((lastComponent f).data.reverse.takeWhile (fun c => c != '.')).isEmpty ∧
      2 ≤ ((lastComponent f).data.reverse.drop
        ((lastComponent f).data.reverse.takeWhile (fun c => c != '.')).length).length
  · refine ⟨((lastComponent f).data.reverse.takeWhile (fun c => c != '.')).reverse,
      ?_, ?_, ?_, ?_⟩
    · show (pySuffixName (lastComponent f)).data = _
      simp only [pySuffixName]
      rw [if_pos hc]
    · intro hrev
      rcases hc with ⟨-, hne, -⟩
      exact hne (by simpa [List.isEmpty_iff] using List.reverse_eq_nil_iff.mp hrev)
    · intro c hcm
      have hmem := List.mem_reverse.mp hcm
      have := List.mem_takeWhile_imp hmem
      exact bne_iff_ne.mp this
    · intro c hcm
      have hmem := List.mem_reverse.mp hcm
      have hsub : c ∈ (lastComponent f).data.reverse :=
        (List.takeWhile_sublist _).subset hmem
      have hlc : c ∈ (lastComponent f).data := List.mem_reverse.mp hsub
      have : c ∈ (f.data.reverse.takeWhile (fun c => c != '/')).reverse := hlc
      have h2 := List.mem_takeWhile_imp (List.mem_reverse.mp this)
      exact bne_iff_ne.mp h2
  · exfalso
    apply h
    show pySuffixName (lastComponent f) = ""
    simp only [pySuffixName]
    exact if_neg hc

theorem isUuidChar_hexChar (n : Fin 16) : isUuidChar (hexChar n) = true := by
  revert n
  decide

theorem uuid4String_length (d : Nat → Fin 16) : (uuid4String d).data.length = 36 := by
  simp [uuid4String, hexRun]

theorem hexRun_chars (d : Nat → Fin 16) (s n : Nat) :
    ∀ c ∈ hexRun d s n, isUuidChar c = true := by
  intro c hc
  simp only [hexRun, List.mem_map, List.mem_range] at hc
  obtain ⟨i, -, rfl⟩ := hc
  exact isUuidChar_hexChar _

theorem uuid4String_chars (d : Nat → Fin 16) :
    ∀ c ∈ (uuid4String d).data, isUuidChar c = true := by
  intro c hc
  have hdash : isUuidChar ('-' : Char) = true := by decide
  have hc2 : c ∈ (((hexRun d 0 8 ++ '-' :: hexRun d 8 4) ++ '-' :: hexRun d 12 4) ++
      '-' :: hexRun d 16 4) ++ '-' :: hexRun d 20 12 := hc
  rcases List.mem_append.mp hc2 with h | h
  · rcases List.mem_append.mp h with h | h
    · rcases List.mem_append.mp h with h | h
      · rcases List.mem_append.mp h with h | h
        · exact hexRun_chars d 0 8 c h
        · rcases List.mem_cons.mp h with rfl | h
          · exact hdash
          · exact hexRun_chars d 8 4 c h
      · rcases List.mem_cons.mp h with rfl | h
        · exact hdash
        · exact hexRun_chars d 12 4 c h
    · rcases List.mem_cons.mp h with rfl | h
      · exact hdash
      · exact hexRun_chars d 16 4 c h
  · rcases List.mem_cons.mp h with rfl | h
    · exact hdash
    · exact hexRun_chars d 20 12 c h

/-- A uuid character is neither a dot, a slash, nor empty-string material. -/
theorem isUuidChar_not_dot_slash (c : Char) (h : isUuidChar c = true) :
    c ≠ '.' ∧ c ≠ '/' := by
  constructor <;> rintro rfl <;> exact absurd h (by decide)

theorem uuid4String_ne_empty (d : Nat → Fin 16) : (uuid4String d).data ≠ [] := by
  intro h
  have := uuid4String_length d
  rw [h] at this
  cases this

theorem uuid4String_no_dot_slash (d : Nat → Fin 16) :
    ∀ c ∈ (uuid4String d).data, c ≠ '.' ∧ c ≠ '/' :=
  fun c hc => isUuidChar_not_dot_slash c (uuid4String_chars d c hc)

/-- A string ending in an extension that lowercases to `.kml` never equals a
string ending in `.geojson`. -/
theorem kml_ne_geojson (A B ext : String) (h : lowerStr ext = ".kml") :
    B ++ ext ≠ A ++ ".geojson" := by
  intro he
  have hextd : ext.data.map Char.toLower = ['.', 'k', 'm', 'l'] :=
    congrArg String.data h
  have h1 : ((B ++ ext).data.map Char.toLower).getLast? = some 'l' := by
    rw [String.data_append, List.map_append, hextd]
    have : (['.', 'k', 'm', 'l'] : List Char) = ['.', 'k', 'm'] ++ ['l'] := rfl
    rw [this, ← List.append_assoc, List.getLast?_concat]
  have h2 : ((A ++ ".geojson").data.map Char.toLower).getLast? = some 'n' := by
    rw [String.data_append, List.map_append]
    have : (".geojson" : String).data.map Char.toLower =
        ['.', 'g', 'e', 'o', 'j', 's', 'o'] ++ ['n'] := by decide
    rw [this, ← List.append_assoc, List.getLast?_concat]
  rw [he, h2] at h1
  cases h1

/-- Exhaustive behavior of `convert_and_save_kml_to_geojson`: a `ValueError`
with the taxonomy's message, success writing the extracted dict, or an
uncaught `IndexError`/`TypeError`; the input file is deleted in every case. -/
theorem convert_spec (conv : ConvOutcome) (input output : String) (fs : FS) :
    (∀ m, convErrMsg conv = some m →
      convert_and_save_kml_to_geojson conv input output fs =
        (.error (.valueError m), FS.remove fs input)) ∧
    (∀ gd tl, conv = .returns (.pyList (gd :: tl)) → falsy gd = false →
      convert_and_save_kml_to_geojson conv input output fs =
        (.ok (), FS.remove (FS.set fs output (.jsonText gd)) input)) ∧
    (∀ v, conv = .returns (.nonList (some v)) → falsy v = false →
      convert_and_save_kml_to_geojson conv input output fs =
        (.ok (), FS.remove (FS.set fs output (.jsonText v)) input)) ∧
    (conv = .returns (.pyList []) →
      convert_and_save_kml_to_geojson conv input output fs =
        (.error .indexError, FS.remove fs input)) ∧
    (conv = .returns (.nonList none) →
      convert_and_save_kml_to_geojson conv input output fs =
        (.error .typeError, FS.remove fs input)) := by
  refine ⟨?_, ?_, ?_, ?_, ?_⟩
  · intro m hm
    cases conv with
    | expatError =>
      simp only [convErrMsg, Option.some.injEq] at hm
      subst hm
      rfl
    | raisesOther =>
      simp only [convErrMsg, Option.some.injEq] at hm
      subst hm
      rfl
    | returns r =>
      cases r with
      | pyList elems =>
        cases elems with
        | nil => simp [convErrMsg] at hm
        | cons gd tl =>
          by_cases hf : falsy gd = true
          · simp only [convErrMsg, hf, if_true, Option.some.injEq] at hm
            subst hm
            simp [convert_and_save_kml_to_geojson, hf]
          · simp only [Bool.not_eq_true] at hf
            simp [convErrMsg, hf] at hm
      | nonList at1 =>
        cases at1 with
        | none => simp [convErrMsg] at hm
        | some v =>
          by_cases hf : falsy v = true
          · simp only [convErrMsg, hf, if_true, Option.some.injEq] at hm
            subst hm
            simp [convert_and_save_kml_to_geojson, hf]
          · simp only [Bool.not_eq_true] at hf
            simp [convErrMsg, hf] at hm
  · rintro gd tl rfl hf
    simp [convert_and_save_kml_to_geojson, hf, FS.lookup_set_self]
  · rintro v rfl hf
    simp [convert_and_save_kml_to_geojson, hf, FS.lookup_set_self]
  · rintro rfl
    rfl
  · rintro rfl
    rfl

/-- Every converter outcome falls in one of the five behavior classes of
`convert_spec`. -/
theorem convOutcome_cases (conv : ConvOutcome) :
    (∃ m, convErrMsg conv = some m) ∨
    (∃ gd tl, conv = .returns (.pyList (gd :: tl)) ∧ falsy gd = false) ∨
    (∃ v, conv = .returns (.nonList (some v)) ∧ falsy v = false) ∨
    conv = .returns (.pyList []) ∨ conv = .returns (.nonList none) := by
  cases conv with
  | expatError => exact Or.inl ⟨_, rfl⟩
  | raisesOther => exact Or.inl ⟨_, rfl⟩
  | returns r =>
    cases r with
    | pyList elems =>
      cases elems with
      | nil => exact Or.inr (Or.inr (Or.inr (Or.inl rfl)))
      | cons gd tl =>
        by_cases hf : falsy gd = true
        · exact Or.inl ⟨"Invalid KML structure or encoding", by simp [convErrMsg, hf]⟩
        · exact Or.inr (Or.inl ⟨gd, tl, rfl, by simpa using hf⟩)
    | nonList at1 =>
      cases at1 with
      | none => exact Or.inr (Or.inr (Or.inr (Or.inr rfl)))
      | some v =>
        by_cases hf : falsy v = true
        · exact Or.inl ⟨"Invalid KML structure or encoding", by simp [convErrMsg, hf]⟩
        · exact Or.inr (Or.inr (Or.inl ⟨v, rfl, by simpa using hf⟩))

/-- C7: a valid non-empty non-KML upload is stored with byte content exactly
equal to the input, in the directory chosen by its geo/image classification,
under a name `<uuid><ext>` whose uuid part is 36 characters over `[0-9a-f-]`
and whose extension is the original one (a dot-led suffix); an upload whose
filename has no suffix fails 400 "File has no extension". -/
theorem C7_non_kml_save (conv : ConvOutcome) (d : Nat → Fin 16) (u : Upload)
    (fs : FS)
    (_hmime : u.content_type ∈ ALLOWED_MIME_TYPES)
    (hne : u.content ≠ [])
    (hnk : lowerStr (pySuffix u.filename) ≠ ".kml") :
    (pySuffix u.filename = "" →
      save_file conv (uuid4String d) u fs =
        (.error ⟨400, "File has no extension"⟩, fs)) ∧
    (pySuffix u.filename ≠ "" →
      ∃ p, p = (if u.content_type ∈ GEO_MIME_TYPES then GEO_JSON_DIR else IMAGE_DIR) ++
            "/" ++ uuid4String d ++ pySuffix u.filename ∧
        save_file conv (uuid4String d) u fs = (.ok p, FS.set fs p (.bytes u.content)) ∧
        FS.lookup (FS.set fs p (.bytes u.content)) p = some (.bytes u.content) ∧
        lastComponent p = uuid4String d ++ pySuffix u.filename ∧
        (∃ rest, (pySuffix u.filename).data = '.' :: rest) ∧
        (uuid4String d).data.length = 36 ∧
        (∀ c ∈ (uuid4String d).data, isUuidChar c = true)) := by
  constructor
  · intro hs
    simp [save_file, get_upload_path, hs]
  · intro hse
    obtain ⟨rest, hsd, hr0, hdot, hslash⟩ := pySuffix_shape u.filename hse
    have hie : u.content.isEmpty = false := by
      cases hcc : u.content with
      | nil => exact absurd hcc hne
      | cons a l => rfl
    have hgp : get_upload_path u (uuid4String d) =
        .ok ((if u.content_type ∈ GEO_MIME_TYPES then GEO_JSON_DIR else IMAGE_DIR) ++
          "/" ++ uuid4String d ++ pySuffix u.filename) := by
      simp [get_upload_path, hse]
    refine ⟨_, rfl, ?_, FS.lookup_set_self _ _ _, ?_, ⟨rest, hsd⟩,
      uuid4String_length d, uuid4String_chars d⟩
    · simp only [save_file, hgp, hie, Bool.false_eq_true, if_false, hnk]
    · exact (withSuffix_alloc _ (uuid4String d) (pySuffix u.filename) rest
        (uuid4String_ne_empty d)
        (fun c hc => (uuid4String_no_dot_slash d c hc).2)
        hsd hr0 hdot hslash).2.1

/-- C7 witness: a concrete geo upload is written verbatim under
`app/static/geo_jsons`. -/
theorem C7_non_kml_save_witness :
    ∃ p, p = (if ("application/geo+json" : String) ∈ GEO_MIME_TYPES then GEO_JSON_DIR
          else IMAGE_DIR) ++ "/" ++ uuid4String (fun _ => 0) ++ pySuffix "a.geojson" ∧
      save_file ConvOutcome.expatError (uuid4String (fun _ => 0))
          ⟨"a.geojson", "application/geo+json", [123]⟩ [] =
        (.ok p, FS.set [] p (.bytes [123])) ∧
      FS.lookup (FS.set [] p (.bytes [123])) p = some (.bytes [123]) ∧
      lastComponent p = uuid4String (fun _ => 0) ++ pySuffix "a.geojson" ∧
      (∃ rest, (pySuffix "a.geojson").data = '.' :: rest) ∧
      (uuid4String (fun _ => 0)).data.length = 36 ∧
      (∀ c ∈ (uuid4String (fun _ => 0)).data, isUuidChar c = true) :=
  (C7_non_kml_save ConvOutcome.expatError (fun _ => 0)
      ⟨"a.geojson", "application/geo+json", [123]⟩ []
      (by decide) (by decide) (by decide)).2 (by decide)

/-- C2 counterexample: a `.kml` upload for which the converter yields an empty
(falsy) result — a conversion failure in the spec's taxonomy — propagates a
500 internal error, not the 400 `ConversionError` the claim states. -/
theorem C2_counterexample :
    (save_file (ConvOutcome.returns (ConvResult.pyList [])) "u2x"
      ⟨"b.kml", "application/geo+json", [7]⟩ []).1 =
      Except.error ⟨500, "An internal error occurred during file saving."⟩ ∧
    (500 : Nat) ≠ 400 := by
  exact ⟨rfl, by decide⟩

/-- C2 (amended): for a `.kml` upload, the original `.kml` artifact never
remains after `save_file`, whatever the converter outcome; on success the
returned path is the sibling `.geojson` path, which holds the converted
dict; when the conversion step fails with a `ValueError` of the taxonomy
(XML parse error, other converter exception, falsy extracted result) a 400
`ConversionError` propagates and no `.geojson` output remains; but when the
converter returns an empty list, a 500 internal error propagates instead
(still leaving no `.geojson` output). -/
theorem C2_kml_save (conv : ConvOutcome) (uuidStr : String) (u : Upload)
    (fs : FS)
    (hk : lowerStr (pySuffix u.filename) = ".kml")
    (hne : u.content ≠ [])
    (path0 geo : String)
    (hp : path0 = (if u.content_type ∈ GEO_MIME_TYPES then GEO_JSON_DIR else IMAGE_DIR)
      ++ "/" ++ uuidStr ++ pySuffix u.filename)
    (hg : geo = withSuffix path0 ".geojson")
    (hfresh : FS.lookup fs geo = none) :
    FS.lookup (save_file conv uuidStr u fs).2 path0 = none ∧
    (∀ gd tl, conv = .returns (.pyList (gd :: tl)) → falsy gd = false →
      (save_file conv uuidStr u fs).1 = .ok geo ∧
      FS.lookup (save_file conv uuidStr u fs).2 geo = some (.jsonText gd)) ∧
    (∀ m, convErrMsg conv = some m →
      (save_file conv uuidStr u fs).1 =
        .error ⟨400, "Error processing KML file: " ++ m⟩ ∧
      FS.lookup (save_file conv uuidStr u fs).2 geo = none) ∧
    (conv = .returns (.pyList []) →
      (save_file conv uuidStr u fs).1 =
        .error ⟨500, "An internal error occurred during file saving."⟩ ∧
      FS.lookup (save_file conv uuidStr u fs).2 geo = none) := by
  have hse : pySuffix u.filename ≠ "" := by
    intro h
    rw [h] at hk
    exact absurd hk (by decide)
  have hie : u.content.isEmpty = false := by
    cases hcc : u.content with
    | nil => exact absurd hcc hne
    | cons a l => rfl
  have hgp : get_upload_path u uuidStr = .ok path0 := by
    rw [hp]
    simp [get_upload_path, hse]
  have hpg : path0 ≠ geo := by
    rw [hp, hg, hp, withSuffix]
    exact kml_ne_geojson _ _ _ hk
  have hsave : save_file conv uuidStr u fs =
      (match (convert_and_save_kml_to_geojson conv path0 (withSuffix path0 ".geojson")
          (FS.set fs path0 (.bytes u.content))).1 with
        | .ok _ => (.ok (withSuffix path0 ".geojson"),
            (convert_and_save_kml_to_geojson conv path0 (withSuffix path0 ".geojson")
              (FS.set fs path0 (.bytes u.content))).2)
        | .error e => (.error (saveErrToHttp e),
            (convert_and_save_kml_to_geojson conv path0 (withSuffix path0 ".geojson")
              (FS.set fs path0 (.bytes u.content))).2)) := by
    simp only [save_file, hgp, hie, Bool.false_eq_true, if_false, hk, if_true]
  have hspec := convert_spec conv path0 (withSuffix path0 ".geojson")
    (FS.set fs path0 (.bytes u.content))
  have hrm : ∀ X : FS, FS.lookup (FS.remove X path0) path0 = none := by
    intro X
    rw [FS.lookup_remove]
    simp
  have hout : FS.lookup (FS.remove (FS.set fs path0 (FileData.bytes u.content)) path0)
      geo = none := by
    rw [FS.lookup_remove, if_neg (Ne.symm hpg),
      FS.lookup_set_ne _ _ _ _ (Ne.symm hpg), hfresh]
  have hsucc : ∀ j : Json,
      FS.lookup (FS.remove (FS.set (FS.set fs path0 (FileData.bytes u.content))
        (withSuffix path0 ".geojson") (FileData.jsonText j)) path0) geo =
      some (FileData.jsonText j) := by
    intro j
    rw [FS.lookup_remove, if_neg (Ne.symm hpg), hg]
    exact FS.lookup_set_self _ _ _
  refine ⟨?_, ?_, ?_, ?_⟩
  · rcases convOutcome_cases conv with ⟨m, hm⟩ | ⟨gd, tl, hc, hf⟩ | ⟨v, hc, hf⟩ | hc | hc
    · rw [hsave, hspec.1 m hm]
      exact hrm _
    · rw [hsave, hspec.2.1 gd tl hc hf]
      exact hrm _
    · rw [hsave, hspec.2.2.1 v hc hf]
      exact hrm _
    · rw [hsave, hspec.2.2.2.1 hc]
      exact hrm _
    · rw [hsave, hspec.2.2.2.2 hc]
      exact hrm _
  · intro gd tl hc hf
    rw [hsave, hspec.2.1 gd tl hc hf]
    exact ⟨by rw [hg], hsucc gd⟩
  · intro m hm
    rw [hsave, hspec.1 m hm]
    exact ⟨rfl, hout⟩
  · intro hc
    rw [hsave, hspec.2.2.2.1 hc]
    exact ⟨rfl, hout⟩

/-- C2 witness: a concrete successful `.kml` conversion returns the sibling
`.geojson` path and the original `.kml` is gone. -/
theorem C2_kml_save_witness :
    FS.lookup (save_file
        (ConvOutcome.returns (ConvResult.pyList
          [Json.obj [("type", Json.str "FeatureCollection")]]))
        "u2w" ⟨"a.kml", "application/json", [5]⟩ []).2
      (GEO_JSON_DIR ++ "/" ++ "u2w" ++ pySuffix "a.kml") = none :=
  (C2_kml_save (ConvOutcome.returns (ConvResult.pyList
      [Json.obj [("type", Json.str "FeatureCollection")]]))
    "u2w" ⟨"a.kml", "application/json", [5]⟩ []
    (by decide) (by decide)
    (GEO_JSON_DIR ++ "/" ++ "u2w" ++ pySuffix "a.kml")
    (withSuffix (GEO_JSON_DIR ++ "/" ++ "u2w" ++ pySuffix "a.kml") ".geojson")
    (by decide) rfl rfl).1

/-- C9: KML conversion is triggered by the filename extension alone: an
allowed upload whose MIME type classifies as image but whose filename ends in
`.kml` (case-insensitive) is converted, the `.geojson` result is stored inside
the image directory, and the created row is an `ImageFile` (`isGeo = false`). -/
theorem C9_kml_conversion_by_extension
    (d : Nat → Fin 16) (gd : Json) (tl : List Json) (u : Upload)
    (institution_id : String) (db : FileDB) (fs : FS)
    (_hmime : u.content_type ∈ ALLOWED_MIME_TYPES)
    (himg : u.content_type ∉ GEO_MIME_TYPES)
    (hk : lowerStr (pySuffix u.filename) = ".kml")
    (hne : u.content ≠ [])
    (hgd : falsy gd = false) :
    ∃ fs2,
      create_file (ConvOutcome.returns (ConvResult.pyList (gd :: tl)))
          (uuid4String d) u institution_id db fs =
        (.ok ⟨uuid4String d ++ ".geojson", false, institution_id,
            IMAGE_DIR ++ "/" ++ uuid4String d ++ ".geojson"⟩,
         db ++ [⟨uuid4String d ++ ".geojson", false, institution_id,
            IMAGE_DIR ++ "/" ++ uuid4String d ++ ".geojson"⟩], fs2) ∧
      FS.lookup fs2 (IMAGE_DIR ++ "/" ++ uuid4String d ++ ".geojson") =
        some (.jsonText gd) := by
  have hse : pySuffix u.filename ≠ "" := by
    intro h
    rw [h] at hk
    exact absurd hk (by decide)
  obtain ⟨rest, hsd, hr0, hdot, hslash⟩ := pySuffix_shape u.filename hse
  have hie : u.content.isEmpty = false := by
    cases hcc : u.content with
    | nil => exact absurd hcc hne
    | cons a l => rfl
  have hgp : get_upload_path u (uuid4String d) =
      .ok (IMAGE_DIR ++ "/" ++ uuid4String d ++ pySuffix u.filename) := by
    simp [get_upload_path, hse, himg]
  have halloc := withSuffix_alloc IMAGE_DIR (uuid4String d) (pySuffix u.filename) rest
    (uuid4String_ne_empty d)
    (fun c hc => (uuid4String_no_dot_slash d c hc).2)
    hsd hr0 hdot hslash
  have hga : withSuffix (IMAGE_DIR ++ "/" ++ uuid4String d ++ pySuffix u.filename)
      ".geojson" = IMAGE_DIR ++ "/" ++ uuid4String d ++ ".geojson" := halloc.2.2
  have hconv := (convert_spec (ConvOutcome.returns (ConvResult.pyList (gd :: tl)))
    (IMAGE_DIR ++ "/" ++ uuid4String d ++ pySuffix u.filename)
    (withSuffix (IMAGE_DIR ++ "/" ++ uuid4String d ++ pySuffix u.filename) ".geojson")
    (FS.set fs (IMAGE_DIR ++ "/" ++ uuid4String d ++ pySuffix u.filename)
      (.bytes u.content))).2.1 gd tl rfl hgd
  rw [hga] at hconv
  have hsave : save_file (ConvOutcome.returns (ConvResult.pyList (gd :: tl)))
      (uuid4String d) u fs =
      (.ok (IMAGE_DIR ++ "/" ++ uuid4String d ++ ".geojson"),
       FS.remove (FS.set (FS.set fs
          (IMAGE_DIR ++ "/" ++ uuid4String d ++ pySuffix u.filename)
          (.bytes u.content))
         (IMAGE_DIR ++ "/" ++ uuid4String d ++ ".geojson") (.jsonText gd))
        (IMAGE_DIR ++ "/" ++ uuid4String d ++ pySuffix u.filename)) := by
    simp only [save_file, hgp, hie, Bool.false_eq_true, if_false, hk, if_true, hga,
      hconv]
  have hpg : (IMAGE_DIR ++ "/" ++ uuid4String d ++ pySuffix u.filename) ≠
      (IMAGE_DIR ++ "/" ++ uuid4String d ++ ".geojson") := by
    exact kml_ne_geojson _ _ _ hk
  have hlast : lastComponent (IMAGE_DIR ++ "/" ++ uuid4String d ++ ".geojson") =
      uuid4String d ++ ".geojson" := by
    refine lastComponent_append IMAGE_DIR (uuid4String d) ".geojson"
      (fun c hc => (uuid4String_no_dot_slash d c hc).2) ?_
    decide
  have hcont : GEO_MIME_TYPES.contains u.content_type = false := by
    simpa using himg
  refine ⟨FS.remove (FS.set (FS.set fs
      (IMAGE_DIR ++ "/" ++ uuid4String d ++ pySuffix u.filename)
      (FileData.bytes u.content))
      (IMAGE_DIR ++ "/" ++ uuid4String d ++ ".geojson") (FileData.jsonText gd))
      (IMAGE_DIR ++ "/" ++ uuid4String d ++ pySuffix u.filename), ?_, ?_⟩
  · simp only [create_file, hsave, hcont, hlast]
  · rw [FS.lookup_remove, if_neg (Ne.symm hpg)]
    exact FS.lookup_set_self _ _ _

/-- C9 witness: concrete image-MIME `.kml` upload converted into the image
directory as an `ImageFile`. -/
theorem C9_kml_conversion_by_extension_witness :
    ∃ fs2,
      create_file (ConvOutcome.returns (ConvResult.pyList
          [Json.obj [("type", Json.str "FeatureCollection")]]))
          (uuid4String (fun _ => 1)) ⟨"pic.kml", "image/png", [9]⟩ "inst9" [] [] =
        (.ok ⟨uuid4String (fun _ => 1) ++ ".geojson", false, "inst9",
            IMAGE_DIR ++ "/" ++ uuid4String (fun _ => 1) ++ ".geojson"⟩,
         [] ++ [⟨uuid4String (fun _ => 1) ++ ".geojson", false, "inst9",
            IMAGE_DIR ++ "/" ++ uuid4String (fun _ => 1) ++ ".geojson"⟩], fs2) ∧
      FS.lookup fs2 (IMAGE_DIR ++ "/" ++ uuid4String (fun _ => 1) ++ ".geojson") =
        some (.jsonText (Json.obj [("type", Json.str "FeatureCollection")])) :=
  C9_kml_conversion_by_extension (fun _ => 1)
    (Json.obj [("type", Json.str "FeatureCollection")]) [] ⟨"pic.kml", "image/png", [9]⟩
    "inst9" [] [] (by decide) (by decide) (by decide) (by decide) rfl

/-- Invariant: no two rows in the file tables share an institution and a kind,
i.e. every institution owns at most one GeoFile and at most one ImageFile. -/
def atMostOnePerKind (db : FileDB) : Prop :=
  db.Pairwise (fun r s => ¬(r.institution_id = s.institution_id ∧ r.isGeo = s.isGeo))

theorem file_exists_false_iff (db : FileDB) (iid : String) (g : Bool) :
    file_exists db iid g = false ↔
      ∀ r ∈ db, ¬(r.institution_id = iid ∧ r.isGeo = g) := by
  simp [file_exists, List.any_eq_false]

theorem atMostOne_append (db : FileDB) (row : FileRec)
    (h : atMostOnePerKind db)
    (hne : file_exists db row.institution_id row.isGeo = false) :
    atMostOnePerKind (db ++ [row]) := by
  rw [atMostOnePerKind, List.pairwise_append]
  refine ⟨h, List.pairwise_singleton _ _, ?_⟩
  intro a ha b hb
  rw [List.mem_singleton] at hb
  rw [hb]
  exact (file_exists_false_iff db row.institution_id row.isGeo).mp hne a ha

/-- C5: the upload route preserves the at-most-one-file-per-kind invariant
across any batch (the duplicate check runs against the database as updated by
the earlier elements of the same batch), and an upload of a file whose kind
the institution already owns is rejected 400 "already exists" with both the
database and the file system unchanged. -/
theorem C5_at_most_one_file_per_kind
    (batch : List (Upload × String × ConvOutcome)) (institution_id : String)
    (db : FileDB) (fs : FS) (hinv : atMostOnePerKind db) :
    atMostOnePerKind (upload_file batch institution_id db fs).2.1 ∧
    (∀ file uid conv rest, batch = (file, uid, conv) :: rest →
      file.content_type ∈ ALLOWED_MIME_TYPES →
      file_exists db institution_id (GEO_MIME_TYPES.contains file.content_type) = true →
      upload_file batch institution_id db fs =
        (.error ⟨400, "File with name " ++ sglq ++ file.filename ++ sglq ++
          " already exists for institution."⟩, db, fs)) := by
  constructor
  · induction batch generalizing db fs with
    | nil => simpa [upload_file] using hinv
    | cons x rest ih =>
      obtain ⟨file, uid, conv⟩ := x
      simp only [upload_file]
      by_cases h1 : file.content_type ∈ ALLOWED_MIME_TYPES
      · rw [if_pos h1]
        by_cases h2 : file_exists db institution_id
            (GEO_MIME_TYPES.contains file.content_type) = true
        · rw [if_pos h2]
          exact hinv
        · rw [if_neg h2]
          rw [Bool.not_eq_true] at h2
          rcases hc : save_file conv uid file fs with ⟨r, fs2⟩
          cases r with
          | error e =>
            simp only [create_file, hc]
            exact hinv
          | ok fp =>
            simp only [create_file, hc]
            exact ih _ _ (atMostOne_append db
              ⟨lastComponent fp, GEO_MIME_TYPES.contains file.content_type,
                institution_id, fp⟩ hinv h2)
      · rw [if_neg h1]
        exact hinv
  · rintro file uid conv rest rfl h1 h2
    simp only [upload_file]
    rw [if_pos h1, if_pos h2]

/-- C5 witness: a second geo upload for an institution that already has a geo
file is rejected with "already exists" and creates nothing. -/
theorem C5_at_most_one_file_per_kind_witness :
    upload_file [(⟨"a.geojson", "application/geo+json", [1]⟩, "u5",
        ConvOutcome.expatError)] "inst1"
      [⟨"old.geojson", true, "inst1", "app/static/geo_jsons/old.geojson"⟩] [] =
      (.error ⟨400, "File with name " ++ sglq ++ "a.geojson" ++ sglq ++
        " already exists for institution."⟩,
       [⟨"old.geojson", true, "inst1", "app/static/geo_jsons/old.geojson"⟩], []) :=
  (C5_at_most_one_file_per_kind
    [(⟨"a.geojson", "application/geo+json", [1]⟩, "u5", ConvOutcome.expatError)]
    "inst1" [⟨"old.geojson", true, "inst1", "app/static/geo_jsons/old.geojson"⟩] []
    (List.pairwise_singleton _ _)).2
    ⟨"a.geojson", "application/geo+json", [1]⟩ "u5" ConvOutcome.expatError []
    rfl (by decide) (by decide)


theorem owMove_true_some (src target : String) (fs : FS) (v : FileData)
    (h : FS.lookup fs src = some v) :
    owMove true src target fs = (.ok (), FS.set (FS.remove fs src) target v) := by
  simp only [owMove]
  rw [if_pos trivial, h]

theorem owMove_true_none (src target : String) (fs : FS)
    (h : FS.lookup fs src = none) :
    owMove true src target fs =
      (.error ⟨500, "Failed to overwrite file: " ++ pyStr (.osError "move failed")⟩,
       FS.remove fs src) := by
  simp only [owMove]
  rw [if_pos trivial, h]

theorem owMove_false (src target : String) (fs : FS) :
    owMove false src target fs =
      (.error ⟨500, "Failed to overwrite file: " ++ pyStr (.osError "move failed")⟩,
       FS.remove fs src) := by
  simp only [owMove]
  rw [if_neg (by decide : ¬(false = true))]

theorem overwrite_file_wrFail (part : List Nat) (conv : ConvOutcome) (moveOk : Bool)
    (uuidStr : String) (file : Upload) (target_path : String) (fs : FS) :
    overwrite_file (some part) conv moveOk uuidStr file target_path fs =
      (.error ⟨500, "Failed to overwrite file: " ++ pyStr (.osError "write failed")⟩,
       FS.remove (FS.set fs (parentDir target_path ++ "/" ++ ("." ++ uuidStr ++ ".tmp"))
         (.bytes part)) (parentDir target_path ++ "/" ++ ("." ++ uuidStr ++ ".tmp"))) :=
  rfl

theorem overwrite_file_kml_error (conv : ConvOutcome) (moveOk : Bool)
    (uuidStr : String) (file : Upload) (target_path : String) (fs : FS)
    (hkml : lowerStr (pySuffix file.filename) = ".kml")
    (e : PyErr) (F : FS)
    (hcv : convert_and_save_kml_to_geojson conv
        (parentDir target_path ++ "/" ++ ("." ++ uuidStr ++ ".tmp"))
        (withSuffix (parentDir target_path ++ "/" ++ ("." ++ uuidStr ++ ".tmp"))
          ".geojson")
        (FS.set fs (parentDir target_path ++ "/" ++ ("." ++ uuidStr ++ ".tmp"))
          (.bytes file.content)) = (.error e, F)) :
    overwrite_file none conv moveOk uuidStr file target_path fs =
      (.error ⟨500, "Failed to overwrite file: " ++ pyStr e⟩,
       FS.remove F (parentDir target_path ++ "/" ++ ("." ++ uuidStr ++ ".tmp"))) := by
  simp only [overwrite_file]
  rw [if_pos hkml, hcv]

theorem overwrite_file_kml_ok (conv : ConvOutcome) (moveOk : Bool)
    (uuidStr : String) (file : Upload) (target_path : String) (fs : FS)
    (hkml : lowerStr (pySuffix file.filename) = ".kml")
    (F : FS)
    (hcv : convert_and_save_kml_to_geojson conv
        (parentDir target_path ++ "/" ++ ("." ++ uuidStr ++ ".tmp"))
        (withSuffix (parentDir target_path ++ "/" ++ ("." ++ uuidStr ++ ".tmp"))
          ".geojson")
        (FS.set fs (parentDir target_path ++ "/" ++ ("." ++ uuidStr ++ ".tmp"))
          (.bytes file.content)) = (.ok (), F)) :
    overwrite_file none conv moveOk uuidStr file target_path fs =
      owMove moveOk (withSuffix (parentDir target_path ++ "/" ++
        ("." ++ uuidStr ++ ".tmp")) ".geojson") target_path F := by
  simp only [overwrite_file]
  rw [if_pos hkml, hcv]

theorem overwrite_file_nonkml (conv : ConvOutcome) (moveOk : Bool)
    (uuidStr : String) (file : Upload) (target_path : String) (fs : FS)
    (hkml : ¬lowerStr (pySuffix file.filename) = ".kml") :
    overwrite_file none conv moveOk uuidStr file target_path fs =
      owMove moveOk (parentDir target_path ++ "/" ++ ("." ++ uuidStr ++ ".tmp"))
        target_path
        (FS.set fs (parentDir target_path ++ "/" ++ ("." ++ uuidStr ++ ".tmp"))
          (.bytes file.content)) := by
  simp only [overwrite_file]
  rw [if_neg hkml]

/-- Shared case of the overwrite analysis: the conversion step succeeded and
wrote the converted temp artifact; the outcome then depends only on the move. -/
theorem overwrite_kml_success_case (conv : ConvOutcome) (moveOk : Bool)
    (uuidStr : String) (file : Upload) (target_path : String) (fs : FS)
    (tmp geo : String)
    (htmp : tmp = parentDir target_path ++ "/" ++ ("." ++ uuidStr ++ ".tmp"))
    (hgeo : geo = withSuffix tmp ".geojson")
    (h1 : target_path ≠ tmp) (h2 : target_path ≠ geo)
    (_hfresh : FS.lookup fs geo = none)
    (hkml : lowerStr (pySuffix file.filename) = ".kml")
    (j : FileData)
    (hcv : convert_and_save_kml_to_geojson conv tmp geo
        (FS.set fs tmp (.bytes file.content)) =
      (.ok (), FS.remove (FS.set (FS.set fs tmp (.bytes file.content)) geo j) tmp)) :
    (∀ e, (overwrite_file none conv moveOk uuidStr file target_path fs).1 =
        .error e →
      FS.lookup (overwrite_file none conv moveOk uuidStr file target_path fs).2
          target_path = FS.lookup fs target_path ∧
      FS.lookup (overwrite_file none conv moveOk uuidStr file target_path fs).2
          tmp = none ∧
      FS.lookup (overwrite_file none conv moveOk uuidStr file target_path fs).2
          geo = none ∧
      e.status = 500 ∧ (∃ s, e.detail = "Failed to overwrite file: " ++ s)) ∧
    (∀ uu, (overwrite_file none conv moveOk uuidStr file target_path fs).1 =
        .ok uu →
      (∃ v, FS.lookup (overwrite_file none conv moveOk uuidStr file target_path
        fs).2 target_path = some v) ∧
      FS.lookup (overwrite_file none conv moveOk uuidStr file target_path fs).2
        tmp = none ∧
      FS.lookup (overwrite_file none conv moveOk uuidStr file target_path fs).2
        geo = none) := by
  have hF2T : FS.lookup (FS.remove (FS.set (FS.set fs tmp (.bytes file.content))
      geo j) tmp) target_path = FS.lookup fs target_path := by
    rw [FS.lookup_remove, if_neg h1, FS.lookup_set_ne _ _ _ _ h2,
      FS.lookup_set_ne _ _ _ _ h1]
  have hF2M : FS.lookup (FS.remove (FS.set (FS.set fs tmp (.bytes file.content))
      geo j) tmp) tmp = none := by
    rw [FS.lookup_remove, if_pos rfl]
  have hRT : FS.lookup (FS.remove (FS.remove (FS.set (FS.set fs tmp
      (.bytes file.content)) geo j) tmp) geo) target_path =
      FS.lookup fs target_path := by
    rw [FS.lookup_remove, if_neg h2]
    exact hF2T
  have hRM : FS.lookup (FS.remove (FS.remove (FS.set (FS.set fs tmp
      (.bytes file.content)) geo j) tmp) geo) tmp = none := by
    rw [FS.lookup_remove]
    by_cases htg : tmp = geo
    · rw [if_pos htg]
    · rw [if_neg htg]
      exact hF2M
  have hRG : FS.lookup (FS.remove (FS.remove (FS.set (FS.set fs tmp
      (.bytes file.content)) geo j) tmp) geo) geo = none := by
    rw [FS.lookup_remove, if_pos rfl]
  have hcvL := hcv
  rw [htmp] at hcvL hgeo
  rw [hgeo] at hcvL
  have hov := overwrite_file_kml_ok conv moveOk uuidStr file target_path fs hkml _ hcvL
  rw [← hgeo, ← htmp] at hov
  by_cases hgt : geo = tmp
  · have hlkg : FS.lookup (FS.remove (FS.set (FS.set fs tmp (.bytes file.content))
        geo j) tmp) geo = none := by
      rw [FS.lookup_remove, if_pos hgt]
    have hov2 : overwrite_file none conv moveOk uuidStr file target_path fs =
        (.error ⟨500, "Failed to overwrite file: " ++ pyStr (.osError "move failed")⟩,
         FS.remove (FS.remove (FS.set (FS.set fs tmp (.bytes file.content)) geo j)
           tmp) geo) := by
      cases moveOk with
      | true => rw [hov, owMove_true_none _ _ _ hlkg]
      | false => rw [hov, owMove_false]
    rw [hov2]
    refine ⟨?_, ?_⟩
    · rintro e he
      injection he with he
      subst he
      exact ⟨hRT, hRM, hRG, rfl, ⟨_, rfl⟩⟩
    · rintro uu huu
      cases huu
  · have hlkg : FS.lookup (FS.remove (FS.set (FS.set fs tmp (.bytes file.content))
        geo j) tmp) geo = some j := by
      rw [FS.lookup_remove, if_neg hgt]
      exact FS.lookup_set_self _ _ _
    cases moveOk with
    | true =>
      have hov2 : overwrite_file none conv true uuidStr file target_path fs =
          (.ok (), FS.set (FS.remove (FS.remove (FS.set (FS.set fs tmp
            (.bytes file.content)) geo j) tmp) geo) target_path j) := by
        rw [hov, owMove_true_some _ _ _ _ hlkg]
      rw [hov2]
      refine ⟨?_, ?_⟩
      · rintro e he
        cases he
      · rintro uu huu
        refine ⟨⟨j, FS.lookup_set_self _ _ _⟩, ?_, ?_⟩
        · rw [FS.lookup_set_ne _ _ _ _ (Ne.symm h1)]
          exact hRM
        · rw [FS.lookup_set_ne _ _ _ _ (Ne.symm h2)]
          exact hRG
    | false =>
      have hov2 : overwrite_file none conv false uuidStr file target_path fs =
          (.error ⟨500, "Failed to overwrite file: " ++ pyStr (.osError "move failed")⟩,
           FS.remove (FS.remove (FS.set (FS.set fs tmp (.bytes file.content)) geo j)
             tmp) geo) := by
        rw [hov, owMove_false]
      rw [hov2]
      refine ⟨?_, ?_⟩
      · rintro e he
        injection he with he
        subst he
        exact ⟨hRT, hRM, hRG, rfl, ⟨_, rfl⟩⟩
      · rintro uu huu
        cases huu

/-- C1: whenever `overwrite_file` fails before the atomic move completes —
write failure, conversion failure, or a failed move — the target path retains
exactly its pre-call content, no temporary artifact (neither the `.tmp` file
nor a converted `.geojson` temp) remains, and the error surfaces as the 500
"Failed to overwrite file" exception; on success the target holds the moved
content and the temporaries are gone, so the target is touched only by the
single atomic move. -/
theorem C1_overwrite_all_or_nothing
    (wrFail : Option (List Nat)) (conv : ConvOutcome) (moveOk : Bool)
    (uuidStr : String) (file : Upload) (target_path : String) (fs : FS)
    (tmp geo : String)
    (htmp : tmp = parentDir target_path ++ "/" ++ ("." ++ uuidStr ++ ".tmp"))
    (hgeo : geo = withSuffix tmp ".geojson")
    (h1 : target_path ≠ tmp) (h2 : target_path ≠ geo)
    (hfresh : FS.lookup fs geo = none) :
    (∀ e, (overwrite_file wrFail conv moveOk uuidStr file target_path fs).1 =
        .error e →
      FS.lookup (overwrite_file wrFail conv moveOk uuidStr file target_path fs).2
          target_path = FS.lookup fs target_path ∧
      FS.lookup (overwrite_file wrFail conv moveOk uuidStr file target_path fs).2
          tmp = none ∧
      FS.lookup (overwrite_file wrFail conv moveOk uuidStr file target_path fs).2
          geo = none ∧
      e.status = 500 ∧ (∃ s, e.detail = "Failed to overwrite file: " ++ s)) ∧
    (∀ uu, (overwrite_file wrFail conv moveOk uuidStr file target_path fs).1 =
        .ok uu →
      (∃ v, FS.lookup (overwrite_file wrFail conv moveOk uuidStr file target_path
        fs).2 target_path = some v) ∧
      FS.lookup (overwrite_file wrFail conv moveOk uuidStr file target_path fs).2
        tmp = none ∧
      FS.lookup (overwrite_file wrFail conv moveOk uuidStr file target_path fs).2
        geo = none) := by
  have hA : ∀ v : FileData,
      FS.lookup (FS.remove (FS.set fs tmp v) tmp) target_path =
        FS.lookup fs target_path := by
    intro v
    rw [FS.lookup_remove, if_neg h1, FS.lookup_set_ne _ _ _ _ h1]
  have hB : ∀ v : FileData,
      FS.lookup (FS.remove (FS.set fs tmp v) tmp) tmp = none := by
    intro v
    rw [FS.lookup_remove, if_pos rfl]
  have hC : ∀ v : FileData,
      FS.lookup (FS.remove (FS.set fs tmp v) tmp) geo = none := by
    intro v
    rw [FS.lookup_remove]
    by_cases hgt : geo = tmp
    · rw [if_pos hgt]
    · rw [if_neg hgt, FS.lookup_set_ne _ _ _ _ hgt, hfresh]
  have hA2 : ∀ v : FileData,
      FS.lookup (FS.remove (FS.remove (FS.set fs tmp v) tmp) tmp) target_path =
        FS.lookup fs target_path := by
    intro v
    rw [FS.lookup_remove, if_neg h1]
    exact hA v
  have hB2 : ∀ v : FileData,
      FS.lookup (FS.remove (FS.remove (FS.set fs tmp v) tmp) tmp) tmp = none := by
    intro v
    rw [FS.lookup_remove, if_pos rfl]
  have hC2 : ∀ v : FileData,
      FS.lookup (FS.remove (FS.remove (FS.set fs tmp v) tmp) tmp) geo = none := by
    intro v
    rw [FS.lookup_remove]
    by_cases hgt : geo = tmp
    · rw [if_pos hgt]
    · rw [if_neg hgt]
      exact hC v
  rcases wrFail with _ | part
  case some =>
    have hov := overwrite_file_wrFail part conv moveOk uuidStr file target_path fs
    rw [← htmp] at hov
    rw [hov]
    refine ⟨?_, ?_⟩
    · rintro e he
      injection he with he
      subst he
      exact ⟨hA _, hB _, hC _, rfl, ⟨_, rfl⟩⟩
    · rintro uu huu
      cases huu
  case none =>
  by_cases hkml : lowerStr (pySuffix file.filename) = ".kml"
  · rcases convOutcome_cases conv with ⟨m, hm⟩ | ⟨gd, tl, hc, hf⟩ | ⟨v, hc, hf⟩ | hc | hc
    · have hcv := (convert_spec conv
        (parentDir target_path ++ "/" ++ ("." ++ uuidStr ++ ".tmp"))
        (withSuffix (parentDir target_path ++ "/" ++ ("." ++ uuidStr ++ ".tmp"))
          ".geojson")
        (FS.set fs (parentDir target_path ++ "/" ++ ("." ++ uuidStr ++ ".tmp"))
          (.bytes file.content))).1 m hm
      have hov := overwrite_file_kml_error conv moveOk uuidStr file target_path fs
        hkml _ _ hcv
      rw [← htmp] at hov
      rw [hov]
      refine ⟨?_, ?_⟩
      · rintro e he
        injection he with he
        subst he
        exact ⟨hA2 _, hB2 _, hC2 _, rfl, ⟨_, rfl⟩⟩
      · rintro uu huu
        cases huu
    · subst hc
      have hcv := (convert_spec (ConvOutcome.returns (ConvResult.pyList (gd :: tl)))
        tmp geo (FS.set fs tmp (.bytes file.content))).2.1 gd tl rfl hf
      exact overwrite_kml_success_case _ moveOk uuidStr file target_path fs tmp geo
        htmp hgeo h1 h2 hfresh hkml (.jsonText gd) hcv
    · subst hc
      have hcv := (convert_spec (ConvOutcome.returns (ConvResult.nonList (some v)))
        tmp geo (FS.set fs tmp (.bytes file.content))).2.2.1 v rfl hf
      exact overwrite_kml_success_case _ moveOk uuidStr file target_path fs tmp geo
        htmp hgeo h1 h2 hfresh hkml (.jsonText v) hcv
    · subst hc
      have hcv := (convert_spec (ConvOutcome.returns (ConvResult.pyList []))
        (parentDir target_path ++ "/" ++ ("." ++ uuidStr ++ ".tmp"))
        (withSuffix (parentDir target_path ++ "/" ++ ("." ++ uuidStr ++ ".tmp"))
          ".geojson")
        (FS.set fs (parentDir target_path ++ "/" ++ ("." ++ uuidStr ++ ".tmp"))
          (.bytes file.content))).2.2.2.1 rfl
      have hov := overwrite_file_kml_error (ConvOutcome.returns (ConvResult.pyList []))
        moveOk uuidStr file target_path fs hkml _ _ hcv
      rw [← htmp] at hov
      rw [hov]
      refine ⟨?_, ?_⟩
      · rintro e he
        injection he with he
        subst he
        exact ⟨hA2 _, hB2 _, hC2 _, rfl, ⟨_, rfl⟩⟩
      · rintro uu huu
        cases huu
    · subst hc
      have hcv := (convert_spec (ConvOutcome.returns (ConvResult.nonList none))
        (parentDir target_path ++ "/" ++ ("." ++ uuidStr ++ ".tmp"))
        (withSuffix (parentDir target_path ++ "/" ++ ("." ++ uuidStr ++ ".tmp"))
          ".geojson")
        (FS.set fs (parentDir target_path ++ "/" ++ ("." ++ uuidStr ++ ".tmp"))
          (.bytes file.content))).2.2.2.2 rfl
      have hov := overwrite_file_kml_error (ConvOutcome.returns (ConvResult.nonList
        none)) moveOk uuidStr file target_path fs hkml _ _ hcv
      rw [← htmp] at hov
      rw [hov]
      refine ⟨?_, ?_⟩
      · rintro e he
        injection he with he
        subst he
        exact ⟨hA2 _, hB2 _, hC2 _, rfl, ⟨_, rfl⟩⟩
      · rintro uu huu
        cases huu
  · have hov := overwrite_file_nonkml conv moveOk uuidStr file target_path fs hkml
    rw [← htmp] at hov
    cases moveOk with
    | true =>
      have hlk : FS.lookup (FS.set fs tmp (.bytes file.content)) tmp =
          some (.bytes file.content) := FS.lookup_set_self _ _ _
      rw [owMove_true_some _ _ _ _ hlk] at hov
      rw [hov]
      refine ⟨?_, ?_⟩
      · rintro e he
        cases he
      · rintro uu huu
        refine ⟨⟨_, FS.lookup_set_self _ _ _⟩, ?_, ?_⟩
        · rw [FS.lookup_set_ne _ _ _ _ (Ne.symm h1)]
          exact hB _
        · rw [FS.lookup_set_ne _ _ _ _ (Ne.symm h2)]
          exact hC _
    | false =>
      rw [owMove_false] at hov
      rw [hov]
      refine ⟨?_, ?_⟩
      · rintro e he
        injection he with he
        subst he
        exact ⟨hA _, hB _, hC _, rfl, ⟨_, rfl⟩⟩
      · rintro uu huu
        cases huu

/-- C1 witness: a concrete overwrite with an injected write failure leaves the
target intact, no temp artifacts, and a 500 error. -/
theorem C1_overwrite_all_or_nothing_witness :
    FS.lookup (overwrite_file (some [1]) ConvOutcome.expatError true "u"
        ⟨"a.png", "image/png", [2]⟩ "app/static/images/t.png"
        [("app/static/images/t.png", FileData.bytes [9])]).2 "app/static/images/t.png" =
      FS.lookup [("app/static/images/t.png", FileData.bytes [9])]
        "app/static/images/t.png" ∧
    FS.lookup (overwrite_file (some [1]) ConvOutcome.expatError true "u"
        ⟨"a.png", "image/png", [2]⟩ "app/static/images/t.png"
        [("app/static/images/t.png", FileData.bytes [9])]).2
      (parentDir "app/static/images/t.png" ++ "/" ++ ("." ++ "u" ++ ".tmp")) = none ∧
    FS.lookup (overwrite_file (some [1]) ConvOutcome.expatError true "u"
        ⟨"a.png", "image/png", [2]⟩ "app/static/images/t.png"
        [("app/static/images/t.png", FileData.bytes [9])]).2
      (withSuffix (parentDir "app/static/images/t.png" ++ "/" ++ ("." ++ "u" ++ ".tmp"))
        ".geojson") = none ∧
    (HTTPException.mk 500 ("Failed to overwrite file: " ++ "write failed")).status =
      500 ∧
    (∃ s, (HTTPException.mk 500 ("Failed to overwrite file: " ++ "write failed")).detail =
      "Failed to overwrite file: " ++ s) :=
  (C1_overwrite_all_or_nothing (some [1]) ConvOutcome.expatError true "u"
      ⟨"a.png", "image/png", [2]⟩ "app/static/images/t.png"
      [("app/static/images/t.png", FileData.bytes [9])]
      (parentDir "app/static/images/t.png" ++ "/" ++ ("." ++ "u" ++ ".tmp"))
      (withSuffix (parentDir "app/static/images/t.png" ++ "/" ++ ("." ++ "u" ++ ".tmp"))
        ".geojson")
      rfl rfl (by decide) (by decide) rfl).1
    ⟨500, "Failed to overwrite file: " ++ "write failed"⟩ rfl

/-- C10 counterexample: for an institution that has a geo file but no image
file, `delete_institution` raises `AttributeError` on the missing
relationship, yet the geo file's on-disk artifact (present before the call)
has already been deleted — contradicting the claim that nothing is removed. -/
theorem C10_counterexample :
    FS.lookup [("app/static/geo_jsons/g.geojson", FileData.bytes [1])]
      "app/static/geo_jsons/g.geojson" = some (FileData.bytes [1]) ∧
    delete_institution
      [⟨"i1", some ⟨"g.geojson", true, "i1", "app/static/geo_jsons/g.geojson"⟩, none⟩]
      [("app/static/geo_jsons/g.geojson", FileData.bytes [1])] "i1" =
      (.error (.attributeError "NoneType object has no attribute path"),
       [⟨"i1", some ⟨"g.geojson", true, "i1", "app/static/geo_jsons/g.geojson"⟩, none⟩],
       []) := by
  exact ⟨rfl, rfl⟩

/-- C10 (amended): `delete_institution` dereferences `geo_file` and then
`image_file` unconditionally, so for an institution lacking either
relationship it raises `AttributeError` and the institution row is never
deleted; when `geo_file` is absent nothing at all is removed, but when only
`image_file` is absent the geo file's on-disk artifact has already been
deleted before the error is raised. -/
theorem C10_delete_missing_relationship
    (db : InstDB) (fs : FS) (institution_id : String) (inst : InstRec)
    (hget : get_institution_by_id db institution_id = .ok inst) :
    (inst.geo_file = none →
      ∃ m, delete_institution db fs institution_id =
        (.error (.attributeError m), db, fs)) ∧
    (∀ g, inst.geo_file = some g → inst.image_file = none →
      ∃ m, delete_institution db fs institution_id =
        (.error (.attributeError m), db, FS.remove fs g.path)) := by
  constructor
  · intro hg
    refine ⟨"NoneType object has no attribute path", ?_⟩
    simp only [delete_institution, hget, hg]
  · intro g hg hi
    refine ⟨"NoneType object has no attribute path", ?_⟩
    simp only [delete_institution, hget, hg, hi]

/-- C10 witness: concrete institution with a geo file and no image file. -/
theorem C10_delete_missing_relationship_witness :
    ∃ m, delete_institution
        [⟨"i2", some ⟨"g2.geojson", true, "i2", "app/static/geo_jsons/g2.geojson"⟩,
          none⟩]
        [("app/static/geo_jsons/g2.geojson", FileData.bytes [3])] "i2" =
      (.error (.attributeError m),
       [⟨"i2", some ⟨"g2.geojson", true, "i2", "app/static/geo_jsons/g2.geojson"⟩,
         none⟩],
       FS.remove [("app/static/geo_jsons/g2.geojson", FileData.bytes [3])]
         "app/static/geo_jsons/g2.geojson") :=
  (C10_delete_missing_relationship
    [⟨"i2", some ⟨"g2.geojson", true, "i2", "app/static/geo_jsons/g2.geojson"⟩, none⟩]
    [("app/static/geo_jsons/g2.geojson", FileData.bytes [3])] "i2"
    ⟨"i2", some ⟨"g2.geojson", true, "i2", "app/static/geo_jsons/g2.geojson"⟩, none⟩
    rfl).2 ⟨"g2.geojson", true, "i2", "app/static/geo_jsons/g2.geojson"⟩ rfl rfl
